import Mathlib

/-!
Shallow embedding of the Python library web application
(`constants.py`, `models.py`, `server.py`) and proofs about its
operations.

Modelling conventions:
* Dates (`datetime.date`) are day numbers (`Int`); `datetime.timedelta(days = n)`
  is addition of `n`.  Timestamps (`time.time()`) are seconds (`Int`).
* Database rows are Lean structures; a table is a `List` of rows.
  `NULL`-able columns are `Option` fields.
* A peewee `UPDATE ... WHERE id = ?` (from `instance.save()`) is a `List.map`
  that rewrites exactly the rows with the given primary key.
* A peewee `Model.get(...)` is `List.find?`; `DoesNotExist` is `none`.
* Bottle control flow: a route that `abort`s or `redirect`s instead of
  rendering is modelled by an explicit outcome constructor.
-/

namespace LibraryProject

/-- From `constants.py`: the number of days a book is allowed to be borrowed. -/
def ALLOWED_BORROW_DAYS : Int := 30

/-- From `models.py`, class `User`.  `last_seen` is nullable (`null=True`), the
other fields are not.  `id` is the SQLite primary key. -/
structure User where
  id : Nat
  email : String
  first_name : String
  last_name : String
  password : String
  logged_in : Bool
  last_seen : Option Int
  is_admin : Bool
deriving Repr, DecidableEq

/-- From `models.py`, class `Author`: an id and a name. -/
structure Author where
  id : Nat
  name : String
deriving Repr, DecidableEq

/-- From `models.py`, class `Book`.  `borrowed_by` is a nullable foreign key to
`User` (modelled by the user's primary key); `borrowed_at` is a nullable
date.  `average_rating` is a nullable numeric column; no claim computes
with it, so its values are modelled as rationals. -/
structure Book where
  id : Nat
  title : String
  publication_year : Int
  average_rating : Option Rat
  ratings_count : Int
  image_url : String
  borrowed_by : Option Nat
  borrowed_at : Option Int
deriving Repr, DecidableEq

/-- The whole database: the four tables (`user`, `author`, `book`, and the
many-to-many through table `book_author_through` holding
(book id, author id) pairs). -/
structure Library where
  users : List User
  authors : List Author
  books : List Book
  book_author : List (Nat × Nat)
deriving Repr, DecidableEq

/-- From `models.py`, `Book.return_date`: today when the book is not borrowed
(`borrowed_at` is `None`; a non-`None` `datetime.date` is always truthy),
otherwise `borrowed_at + timedelta(days=ALLOWED_BORROW_DAYS)`. -/
def Book.return_date (today : Int) (b : Book) : Int :=
  match b.borrowed_at with
  | none => today
  | some d => d + ALLOWED_BORROW_DAYS

/-- Peewee `Book.get(id=book_id)`: the first row of the book table with the given
primary key, or `DoesNotExist` (`none`). -/
def findBook (books : List Book) (book_id : Nat) : Option Book :=
  books.find? (fun b => b.id == book_id)

/-- From `server.py`, `borrow_book` (the part after authentication): look the
book up by id; on `DoesNotExist`, `abort(404, "Book not found.")` —
modelled as `none`, the state unchanged.  Otherwise set `borrowed_by` to
the logged-in user and `borrowed_at` to today and `save()` (an UPDATE of
the row with that id). -/
def borrow_book (today : Int) (uid : Nat) (book_id : Nat) (lib : Library) :
    Option Library :=
  match findBook lib.books book_id with
  | none => none
  | some _ =>
      some { lib with
        books := lib.books.map (fun b =>
          if b.id = book_id then
            { b with borrowed_by := some uid, borrowed_at := some today }
          else b) }

/-- From `server.py`, `return_book` (the part after authentication): look the
book up by id; on `DoesNotExist`, `abort(404, ...)` (`none`).  Otherwise
clear `borrowed_by` and `borrowed_at` and `save()`. -/
def return_book (book_id : Nat) (lib : Library) : Option Library :=
  match findBook lib.books book_id with
  | none => none
  | some _ =>
      some { lib with
        books := lib.books.map (fun b =>
          if b.id = book_id then
            { b with borrowed_by := none, borrowed_at := none }
          else b) }

/-- One borrow/return request against the database. -/
inductive BorrowOp where
  | borrow (today : Int) (uid : Nat) (book_id : Nat)
  | ret (book_id : Nat)
deriving Repr, DecidableEq

/-- Run one operation; an aborted (404) request leaves the state unchanged. -/
def applyOp (lib : Library) (op : BorrowOp) : Library :=
  match op with
  | .borrow today uid book_id => (borrow_book today uid book_id lib).getD lib
  | .ret book_id => (return_book book_id lib).getD lib

/-- The availability invariant of a book row: `borrowed_by` is NULL iff
`borrowed_at` is NULL. -/
def Book.linked (b : Book) : Prop :=
  b.borrowed_by = none ↔ b.borrowed_at = none

instance (b : Book) : Decidable b.linked := by
  unfold Book.linked; infer_instance

/-- The two credential cookies set by `set_logged_in_user` and read by
`get_logged_in_user` (`request.get_cookie` yields `None` when absent). -/
structure Cookies where
  user_email : Option String
  password : Option String
deriving Repr, DecidableEq

/-- The WHERE clause of the `User.get` in `server.py`,
`get_logged_in_user`: cookie email matches, cookie password matches,
`logged_in` is true, and `time.time() - last_seen < 3600` (a NULL
`last_seen`, like a missing cookie, never satisfies its comparison). -/
def sessionMatches (now : Int) (cookie_email cookie_password : Option String)
    (u : User) : Bool :=
  cookie_email == some u.email && cookie_password == some u.password &&
    u.logged_in &&
    (match u.last_seen with
     | some t => decide (now - t < 3600)
     | none => false)

/-- From `server.py`, `get_logged_in_user`: find a user matching the cookies
that has been seen in the past hour; on success update `last_seen` to now
and `save()`, returning the user; on `DoesNotExist` redirect to the login
page (modelled as `none`), the table unchanged. -/
def get_logged_in_user (now : Int)
    (cookie_email cookie_password : Option String) (users : List User) :
    Option User × List User :=
  match users.find? (sessionMatches now cookie_email cookie_password) with
  | some u =>
      let u2 := { u with last_seen := some now }
      (some u2, users.map (fun v => if v.id = u.id then u2 else v))
  | none => (none, users)

/-- From `server.py`, `set_logged_in_user`: set the two credential cookies to
the user's email and password, set `logged_in = True` and
`last_seen = time.time()`, and `save()`. -/
def set_logged_in_user (now : Int) (u : User) (users : List User) :
    Cookies × List User :=
  let u2 := { u with logged_in := true, last_seen := some now }
  (⟨some u.email, some u.password⟩,
    users.map (fun v => if v.id = u.id then u2 else v))

/-- The data the login template receives back. -/
structure LoginForm where
  email : String
  password : String
  error : String
deriving Repr, DecidableEq

/-- Outcome of the login POST: re-render the form with an error, or set
cookies and redirect to `/home`. -/
inductive LoginOutcome where
  | form (fd : LoginForm) (users : List User)
  | redirectHome (cookies : Cookies) (users : List User)
deriving Repr, DecidableEq

/-- The WHERE clause of the `User.get` in `server.py`, `login`: exact
email and password equality, nothing else. -/
def loginMatches (email password : String) (u : User) : Bool :=
  u.email == email && u.password == password

/-- From `server.py`, `login`: reject empty email then empty password; then
look the user up by exact (email, password); on a match call
`set_logged_in_user` and redirect home, on `DoesNotExist` re-render the
form with the generic error message. -/
def login (now : Int) (email password : String) (users : List User) :
    LoginOutcome :=
  if email = "" then
    .form ⟨email, password, "Please enter an email address."⟩ users
  else if password = "" then
    .form ⟨email, password, "Please enter a password."⟩ users
  else
    match users.find? (loginMatches email password) with
    | some u =>
        let r := set_logged_in_user now u users
        .redirectHome r.1 r.2
    | none =>
        .form ⟨email, password, "Bad email/password. Please try again or Register."⟩
          users

/-- The data the register template receives back (`form_data`). -/
structure RegisterForm where
  email : String
  password : String
  first_name : String
  last_name : String
  error : String
deriving Repr, DecidableEq

/-- Outcome of the register POST: re-render the form with an error, or
set cookies and redirect to `/home`. -/
inductive RegisterOutcome where
  | form (fd : RegisterForm) (users : List User)
  | redirectHome (cookies : Cookies) (users : List User)
deriving Repr, DecidableEq

/-- From `server.py`, `register`: validate the four fields in source order
(first name, last name, email, password; Python truthiness of a string is
non-emptiness), then `User.create` — which raises `IntegrityError` when a
row with the same email exists (`email = CharField(unique=True)`) —
then `set_logged_in_user` and redirect home.  `new_id` is the fresh
primary key SQLite assigns to the inserted row. -/
def register (now : Int) (new_id : Nat)
    (first_name last_name email password : String) (users : List User) :
    RegisterOutcome :=
  if first_name = "" then
    .form ⟨email, password, first_name, last_name, "Please enter a First Name."⟩ users
  else if last_name = "" then
    .form ⟨email, password, first_name, last_name, "Please enter a Last Name."⟩ users
  else if email = "" then
    .form ⟨email, password, first_name, last_name, "Please enter an email address."⟩ users
  else if password = "" then
    .form ⟨email, password, first_name, last_name, "Please enter a password."⟩ users
  else if users.any (fun u => u.email == email) then
    .form ⟨email, password, first_name, last_name,
      "User with email " ++ email ++
        " already registered. Please <a href=\x27login\x27/>login</a> instead"⟩ users
  else
    let u : User :=
      { id := new_id, email := email, first_name := first_name,
        last_name := last_name, password := password,
        logged_in := false, last_seen := none, is_admin := false }
    let r := set_logged_in_user now u (users ++ [u])
    .redirectHome r.1 r.2

/-- From `server.py`, `logout`: resolve the logged-in user (redirecting to the
login page when that fails), set `logged_in = False` and `save()`. -/
def logout (now : Int) (cookie_email cookie_password : Option String)
    (users : List User) : List User :=
  match get_logged_in_user now cookie_email cookie_password users with
  | (none, users2) => users2
  | (some u, users2) =>
      let u2 := { u with logged_in := false }
      users2.map (fun v => if v.id = u.id then u2 else v)

/-- The author names the `borrow_books` query joins to a book: through
rows for this book id, inner-joined to the author table. -/
def authorNames (lib : Library) (book_id : Nat) : List String :=
  (lib.book_author.filter (fun p => p.1 == book_id)).filterMap
    (fun p => (lib.authors.find? (fun a => a.id == p.2)).map Author.name)

/-- One row of the `borrow_books` query result: a book together with its
`GROUP_CONCAT(author.name)` aggregate (`author_list`). -/
structure BorrowableBook where
  book : Book
  author_list : String
deriving Repr, DecidableEq

/-- The ORDER BY of the `borrow_books` query: lexicographic order of the
titles. -/
def byTitle (a b : Book) : Prop := a.title ≤ b.title

instance : DecidableRel byTitle := fun a b =>
  inferInstanceAs (Decidable (a.title ≤ b.title))

instance : IsTotal Book byTitle := ⟨fun a b => le_total a.title b.title⟩

instance : IsTrans Book byTitle := ⟨fun _ _ _ h1 h2 => le_trans h1 h2⟩

/-- The SELECT in `server.py`, `borrow_books`: books LEFT OUTER JOINed to
the through table and INNER JOINed to `author` (so a book row survives
only when at least one author row joins to it), grouped by book id with
`GROUP_CONCAT(author.name)`, ordered by title. -/
def borrow_books_query (lib : Library) : List BorrowableBook :=
  (List.insertionSort byTitle
      (lib.books.filter (fun b => !(authorNames lib b.id).isEmpty))).map
    (fun b => ⟨b, String.intercalate "," (authorNames lib b.id)⟩)

/-- From `server.py`, `borrow_books` (after authentication as `uid`): the
query result, keeping only the books whose `borrowed_by` is not the
current user (peewee model equality compares primary keys; `None` never
equals a user). -/
def borrow_books (uid : Nat) (lib : Library) : List BorrowableBook :=
  (borrow_books_query lib).filter (fun ab => ab.book.borrowed_by != some uid)

/-! ### Concrete sample data for witnesses and counterexamples -/

/-- A sample available book. -/
def bookA : Book :=
  { id := 1, title := "Aeneid", publication_year := 2000, average_rating := none,
    ratings_count := 3, image_url := "imgA", borrowed_by := none, borrowed_at := none }

/-- A sample book currently borrowed by user 2. -/
def bookB : Book :=
  { id := 2, title := "Beowulf", publication_year := 1990, average_rating := none,
    ratings_count := 8, image_url := "imgB", borrowed_by := some 2, borrowed_at := some 90 }

/-- A sample logged-in user. -/
def userA : User :=
  { id := 1, email := "a@x.y", first_name := "Ada", last_name := "A",
    password := "pa", logged_in := true, last_seen := some 50, is_admin := false }

/-- A second sample user. -/
def userB : User :=
  { id := 2, email := "b@x.y", first_name := "Bob", last_name := "B",
    password := "pb", logged_in := false, last_seen := none, is_admin := false }

/-- A sample database with an author attached to each book. -/
def sampleLib : Library :=
  { users := [userA, userB],
    authors := [⟨1, "Virgil"⟩, ⟨2, "Anon"⟩],
    books := [bookA, bookB],
    book_author := [(1, 1), (2, 2)] }

/-! ### Helper lemmas -/

/-- Both `borrow_book` and `return_book` rewrite the book table with a
pointwise update that touches only the row with the requested id, and
only its `borrowed_by`/`borrowed_at` columns. -/
theorem update_books_frame (upd : Book → Book)
    (hby : ∀ b, ((upd b).id, (upd b).title, (upd b).publication_year,
        (upd b).average_rating, (upd b).ratings_count, (upd b).image_url) =
      (b.id, b.title, b.publication_year, b.average_rating, b.ratings_count,
        b.image_url))
    (books : List Book) :
    List.Forall₂ (fun b b2 : Book =>
      b2.id = b.id ∧ b2.title = b.title ∧
      b2.publication_year = b.publication_year ∧
      b2.average_rating = b.average_rating ∧
      b2.ratings_count = b.ratings_count ∧
      b2.image_url = b.image_url) books (books.map upd) := by
  rw [List.forall₂_map_right_iff]
  rw [List.forall₂_same]
  intro b _
  have h := hby b
  simp only [Prod.mk.injEq] at h
  exact ⟨h.1, h.2.1, h.2.2.1, h.2.2.2.1, h.2.2.2.2.1, h.2.2.2.2.2⟩

/-- One borrow or return request keeps the availability invariant of
every book row. -/
theorem applyOp_keeps_linked (lib : Library) (op : BorrowOp)
    (h : ∀ b ∈ lib.books, b.linked) :
    ∀ b ∈ (applyOp lib op).books, b.linked := by
  cases op with
  | borrow today uid book_id =>
      simp only [applyOp, borrow_book]
      cases hf : findBook lib.books book_id with
      | none => simpa using h
      | some b0 =>
          simp only [Option.getD_some]
          intro b hb
          simp only [List.mem_map] at hb
          obtain ⟨a, ha, rfl⟩ := hb
          by_cases hid : a.id = book_id
          · simp [hid, Book.linked]
          · simpa [hid] using h a ha
  | ret book_id =>
      simp only [applyOp, return_book]
      cases hf : findBook lib.books book_id with
      | none => simpa using h
      | some b0 =>
          simp only [Option.getD_some]
          intro b hb
          simp only [List.mem_map] at hb
          obtain ⟨a, ha, rfl⟩ := hb
          by_cases hid : a.id = book_id
          · simp [hid, Book.linked]
          · simpa [hid] using h a ha

/-! ### Claims -/

/-- C1: if every book satisfies `borrowed_by is null ⇔ borrowed_at is
null`, then after any sequence of `borrow_book`/`return_book` requests
(`borrow_book` sets both fields, `return_book` clears both, and an
aborted request changes nothing) every book still satisfies it: no
reachable sequence of borrow/return operations leaves exactly one of the
two fields set. -/
theorem borrow_return_keep_linked (ops : List BorrowOp) (lib : Library)
    (h : ∀ b ∈ lib.books, b.linked) :
    ∀ b ∈ (ops.foldl applyOp lib).books, b.linked := by
  induction ops generalizing lib with
  | nil => exact h
  | cons op ops ih =>
      exact ih (applyOp lib op) (applyOp_keeps_linked lib op h)

/-- Witness for C1 at a concrete library and a concrete sequence: after
user 1 borrows and returns book 2, user 2 borrows book 1 and a borrow of
a missing id aborts, the row book 1 became satisfies the invariant. -/
theorem borrow_return_keep_linked_witness :
    Book.linked { bookA with borrowed_by := some 2, borrowed_at := some 101 } :=
  borrow_return_keep_linked
    [BorrowOp.borrow 100 1 2, BorrowOp.ret 2, BorrowOp.borrow 101 2 1,
      BorrowOp.borrow 102 1 5] sampleLib (by decide) _ (by decide)

/-- C2: `return_date` yields today when `borrowed_at` is null, and yields
`borrowed_at + ALLOWED_BORROW_DAYS` (which is exactly 30 days) for every
non-null `borrowed_at`. -/
theorem return_date_spec (today : Int) (b : Book) :
    (b.borrowed_at = none → b.return_date today = today) ∧
    (∀ d : Int, b.borrowed_at = some d →
      b.return_date today = d + ALLOWED_BORROW_DAYS ∧ ALLOWED_BORROW_DAYS = 30) := by
  constructor
  · intro h
    simp [Book.return_date, h]
  · intro d h
    simp [Book.return_date, h, ALLOWED_BORROW_DAYS]

/-- Witness for C2: an unborrowed book and a book borrowed on day 90. -/
theorem return_date_spec_witness :
    bookA.return_date 95 = 95 ∧ bookB.return_date 95 = 90 + 30 := by
  constructor
  · exact (return_date_spec 95 bookA).1 rfl
  · have h := ((return_date_spec 95 bookB).2 90 rfl)
    rw [h.1, h.2]

/-- C4: when no book has the requested id, `borrow_book` fails with the
not-found abort (`none`, no state change).  When a book with that id
exists, the request succeeds and the row with that id ends with
`borrowed_by = uid` and `borrowed_at = today` — with no hypothesis at all
on the previous `borrowed_by`, so a previous borrower is simply
overwritten (last write wins). -/
theorem borrow_book_spec (today : Int) (uid book_id : Nat) (lib : Library) :
    ((∀ b ∈ lib.books, b.id ≠ book_id) →
      borrow_book today uid book_id lib = none) ∧
    ((∃ b ∈ lib.books, b.id = book_id) →
      ∃ lib2, borrow_book today uid book_id lib = some lib2 ∧
        (∃ b ∈ lib2.books, b.id = book_id) ∧
        (∀ b ∈ lib2.books, b.id = book_id →
          b.borrowed_by = some uid ∧ b.borrowed_at = some today)) := by
  constructor
  · intro h
    have hf : findBook lib.books book_id = none := by
      simp only [findBook, List.find?_eq_none]
      intro b hb
      simpa using h b hb
    simp [borrow_book, hf]
  · rintro ⟨b0, hb0, hid0⟩
    have hsome : (findBook lib.books book_id).isSome := by
      simp only [findBook, List.find?_isSome]
      exact ⟨b0, hb0, by simpa using hid0⟩
    obtain ⟨b1, hf⟩ := Option.isSome_iff_exists.mp hsome
    refine ⟨{ lib with books := lib.books.map (fun b =>
        if b.id = book_id then
          { b with borrowed_by := some uid, borrowed_at := some today }
        else b) }, by simp [borrow_book, hf], ?_, ?_⟩
    · refine ⟨{ b0 with borrowed_by := some uid, borrowed_at := some today },
        ?_, by simpa using hid0⟩
      simp only [List.mem_map]
      exact ⟨b0, hb0, by simp [hid0]⟩
    · intro b hb hbid
      simp only [List.mem_map] at hb
      obtain ⟨a, _, rfl⟩ := hb
      by_cases hida : a.id = book_id
      · simp [hida]
      · simp only [if_neg hida] at hbid
        exact absurd hbid hida

/-- Witness for C4: borrowing a missing id aborts; borrowing `bookB` —
already borrowed by user 2 — succeeds for user 1 and overwrites the
borrower. -/
theorem borrow_book_spec_witness :
    borrow_book 100 1 5 sampleLib = none ∧
    ∃ lib2, borrow_book 100 1 2 sampleLib = some lib2 ∧
      (∃ b ∈ lib2.books, b.id = 2) ∧
      (∀ b ∈ lib2.books, b.id = 2 →
        b.borrowed_by = some 1 ∧ b.borrowed_at = some 100) := by
  constructor
  · exact (borrow_book_spec 100 1 5 sampleLib).1 (by decide)
  · exact (borrow_book_spec 100 1 2 sampleLib).2 ⟨bookB, by decide, by decide⟩

/-- C9: a successful `borrow_book` or `return_book` leaves the user,
author and through tables unchanged, and rewrites the book table row by
row so that every row keeps its id, title, publication year, rating data,
image url — and every row whose id is not the requested one is completely
unchanged.  Only `borrowed_by`/`borrowed_at` of the addressed row can
change. -/
theorem borrow_return_frame (today : Int) (uid book_id : Nat)
    (lib lib2 : Library)
    (h : borrow_book today uid book_id lib = some lib2 ∨
      return_book book_id lib = some lib2) :
    lib2.users = lib.users ∧ lib2.authors = lib.authors ∧
    lib2.book_author = lib.book_author ∧
    List.Forall₂ (fun b b2 : Book =>
      b2.id = b.id ∧ b2.title = b.title ∧
      b2.publication_year = b.publication_year ∧
      b2.average_rating = b.average_rating ∧
      b2.ratings_count = b.ratings_count ∧
      b2.image_url = b.image_url ∧
      (b.id ≠ book_id → b2 = b)) lib.books lib2.books := by
  have main : ∀ upd : Book → Book,
      (∀ b, ((upd b).id, (upd b).title, (upd b).publication_year,
          (upd b).average_rating, (upd b).ratings_count, (upd b).image_url) =
        (b.id, b.title, b.publication_year, b.average_rating, b.ratings_count,
          b.image_url)) →
      (∀ b : Book, b.id ≠ book_id → upd b = b) →
      lib2 = { lib with books := lib.books.map upd } →
      lib2.users = lib.users ∧ lib2.authors = lib.authors ∧
      lib2.book_author = lib.book_author ∧
      List.Forall₂ (fun b b2 : Book =>
        b2.id = b.id ∧ b2.title = b.title ∧
        b2.publication_year = b.publication_year ∧
        b2.average_rating = b.average_rating ∧
        b2.ratings_count = b.ratings_count ∧
        b2.image_url = b.image_url ∧
        (b.id ≠ book_id → b2 = b)) lib.books lib2.books := by
    intro upd hcols hout heq
    subst heq
    refine ⟨rfl, rfl, rfl, ?_⟩
    rw [List.forall₂_map_right_iff, List.forall₂_same]
    intro b _
    have hc := hcols b
    simp only [Prod.mk.injEq] at hc
    exact ⟨hc.1, hc.2.1, hc.2.2.1, hc.2.2.2.1, hc.2.2.2.2.1, hc.2.2.2.2.2,
      fun hne => hout b hne⟩
  rcases h with h | h
  · simp only [borrow_book] at h
    cases hf : findBook lib.books book_id with
    | none => rw [hf] at h; exact absurd h (by simp)
    | some b1 =>
        rw [hf] at h
        refine main _ ?_ ?_ (by injection h; subst_eqs; rfl)
        · intro b
          by_cases hb : b.id = book_id <;> simp [hb]
        · intro b hb
          simp [hb]
  · simp only [return_book] at h
    cases hf : findBook lib.books book_id with
    | none => rw [hf] at h; exact absurd h (by simp)
    | some b1 =>
        rw [hf] at h
        refine main _ ?_ ?_ (by injection h; subst_eqs; rfl)
        · intro b
          by_cases hb : b.id = book_id <;> simp [hb]
        · intro b hb
          simp [hb]

/-- Witness for C9: returning book 2 in the sample library touches
nothing but that row's borrow columns. -/
theorem borrow_return_frame_witness :
    ∃ lib2 : Library,
      lib2.users = sampleLib.users ∧ lib2.authors = sampleLib.authors ∧
      lib2.book_author = sampleLib.book_author ∧
      List.Forall₂ (fun b b2 : Book =>
        b2.id = b.id ∧ b2.title = b.title ∧
        b2.publication_year = b.publication_year ∧
        b2.average_rating = b.average_rating ∧
        b2.ratings_count = b.ratings_count ∧
        b2.image_url = b.image_url ∧
        (b.id ≠ 2 → b2 = b)) sampleLib.books lib2.books := by
  refine ⟨(return_book 2 sampleLib).getD sampleLib, ?_⟩
  have h := borrow_return_frame 0 0 2 sampleLib
    ((return_book 2 sampleLib).getD sampleLib) (Or.inr (by decide))
  exact h

/-- C3: with matching cookies and `logged_in` true, the resolver rejects
a session whose `last_seen` is exactly 3600 seconds old (returning no
user and leaving the table untouched) and accepts one that is 3599
seconds old.  The decision uses `last_seen` as it was read: the accepted
branch returns the user with `last_seen` already rewritten to `now`, yet
rejection at exactly 3600 shows the pre-update value is what was
compared. -/
theorem get_logged_in_user_freshness_boundary (now : Int) (u : User)
    (hl : u.logged_in = true) :
    (u.last_seen = some (now - 3600) →
      get_logged_in_user now (some u.email) (some u.password) [u] =
        (none, [u])) ∧
    (u.last_seen = some (now - 3599) →
      get_logged_in_user now (some u.email) (some u.password) [u] =
        (some { u with last_seen := some now },
          [{ u with last_seen := some now }])) := by
  constructor
  · intro h
    have h36 : ¬ (now - (now - 3600) < 3600) := by omega
    simp [get_logged_in_user, List.find?, sessionMatches, h, hl, h36]
  · intro h
    have h35 : now - (now - 3599) < 3600 := by omega
    simp [get_logged_in_user, List.find?, sessionMatches, h, hl, h35]

/-- Witness for C3 at `now = 10000`. -/
theorem get_logged_in_user_freshness_boundary_witness :
    (get_logged_in_user 10000 (some "a@x.y") (some "pa")
        [{ userA with last_seen := some 6400 }] =
      (none, [{ userA with last_seen := some 6400 }])) ∧
    (get_logged_in_user 10000 (some "a@x.y") (some "pa")
        [{ userA with last_seen := some 6401 }] =
      (some { userA with last_seen := some 10000 },
        [{ userA with last_seen := some 10000 }])) := by
  constructor
  · exact (get_logged_in_user_freshness_boundary 10000
      { userA with last_seen := some 6400 } rfl).1 rfl
  · exact (get_logged_in_user_freshness_boundary 10000
      { userA with last_seen := some 6401 } rfl).2 rfl

/-- C10: (i) the resolver only ever returns a user whose `logged_in` is
true; (ii) `logout` leaves the logged-out user's row in the table with
its credentials and refreshed `last_seen` intact but `logged_in` false;
so (iii) — assuming the email-uniqueness constraint of the user table —
after a user logs out, a later request presenting that user's still-valid
cookie pair is rejected by `get_logged_in_user`. -/
theorem logout_blocks_session (now now2 : Int) (e p : String)
    (users : List User) (u : User)
    (hu : List.Pairwise (fun a b : User => a.email ≠ b.email) users)
    (hf : users.find? (sessionMatches now (some e) (some p)) = some u) :
    (∀ (now3 : Int) (ce cp : Option String) (users3 : List User) (v : User),
        (get_logged_in_user now3 ce cp users3).1 = some v →
        v.logged_in = true) ∧
    ({ u with last_seen := some now, logged_in := false } ∈
        logout now (some e) (some p) users) ∧
    (get_logged_in_user now2 (some e) (some p)
        (logout now (some e) (some p) users)).1 = none := by
  have humem := List.mem_of_find?_eq_some hf
  have hm := List.find?_some hf
  simp only [sessionMatches, Bool.and_eq_true, beq_iff_eq,
    Option.some.injEq] at hm
  obtain ⟨⟨⟨he, hp⟩, hlog⟩, hfresh⟩ := hm
  have hlogout : logout now (some e) (some p) users =
      (users.map (fun v =>
          if v.id = u.id then { u with last_seen := some now } else v)).map
        (fun v => if v.id = u.id then
          { u with last_seen := some now, logged_in := false } else v) := by
    simp only [logout, get_logged_in_user, hf]
  refine ⟨?_, ?_, ?_⟩
  · intro now3 ce cp users3 v hv
    simp only [get_logged_in_user] at hv
    cases hw : users3.find? (sessionMatches now3 ce cp) with
    | none => rw [hw] at hv; simp at hv
    | some w =>
        rw [hw] at hv
        simp only [Option.some.injEq] at hv
        have hwm := List.find?_some hw
        simp only [sessionMatches, Bool.and_eq_true] at hwm
        have hwl : w.logged_in = true := hwm.1.2
        rw [← hv]
        exact hwl
  · rw [hlogout]
    refine List.mem_map.mpr ⟨{ u with last_seen := some now }, ?_, by simp⟩
    exact List.mem_map.mpr ⟨u, humem, by simp⟩
  · rw [hlogout]
    have hnone : ((users.map (fun v =>
        if v.id = u.id then { u with last_seen := some now } else v)).map
          (fun v => if v.id = u.id then
            { u with last_seen := some now, logged_in := false } else v)).find?
            (sessionMatches now2 (some e) (some p)) = none := by
      rw [List.find?_eq_none]
      intro v hv
      simp only [List.mem_map] at hv
      obtain ⟨w1, ⟨w, hw, rfl⟩, rfl⟩ := hv
      by_cases hwid : w.id = u.id
      · simp [hwid, sessionMatches]
      · simp only [if_neg hwid]
        intro hsm
        simp only [sessionMatches, Bool.and_eq_true, beq_iff_eq,
          Option.some.injEq] at hsm
        have hwe : e = w.email := hsm.1.1.1
        have hsymm : Symmetric (fun a b : User => a.email ≠ b.email) :=
          fun a b h h2 => h h2.symm
        have hweq : w = u := by
          by_contra hne
          exact (List.Pairwise.forall hsymm hu hw humem hne)
            (hwe.symm.trans he)
        exact hwid (by rw [hweq])
    simp only [get_logged_in_user, hnone]

/-- Witness for C10: user A logs out at time 100; at time 200 the same
cookie pair no longer resolves. -/
theorem logout_blocks_session_witness :
    (get_logged_in_user 200 (some "a@x.y") (some "pa")
        (logout 100 (some "a@x.y") (some "pa") [userA, userB])).1 = none :=
  (logout_blocks_session 100 200 "a@x.y" "pa" [userA, userB] userA
    (by decide) (by decide)).2.2

/-- C6: with non-empty email and password, login matches a user by exact
(email, password) equality only — its predicate is insensitive to
`logged_in` and `last_seen` — and on a match sets that user's row to
`logged_in = true`, `last_seen = now`, sets the two credential cookies
and redirects home; on no match it re-renders the form with the generic
error message. -/
theorem login_spec (now : Int) (email password : String) (users : List User)
    (he : email ≠ "") (hp : password ≠ "") :
    (∀ u : User, loginMatches email password u = true ↔
      (u.email = email ∧ u.password = password)) ∧
    (∀ (u : User) (li : Bool) (ls : Option Int),
      loginMatches email password { u with logged_in := li, last_seen := ls } =
        loginMatches email password u) ∧
    (∀ u : User, users.find? (loginMatches email password) = some u →
      login now email password users =
        .redirectHome ⟨some u.email, some u.password⟩
          (users.map (fun v => if v.id = u.id then
            { u with logged_in := true, last_seen := some now } else v))) ∧
    (users.find? (loginMatches email password) = none →
      login now email password users =
        .form ⟨email, password, "Bad email/password. Please try again or Register."⟩
          users) := by
  refine ⟨?_, ?_, ?_, ?_⟩
  · intro u
    simp [loginMatches]
  · intro u li ls
    rfl
  · intro u hu
    simp [login, if_neg he, if_neg hp, hu, set_logged_in_user]
  · intro hu
    simp [login, if_neg he, if_neg hp, hu]

/-- Witness for C6: user B logs in with the right credentials even while
`logged_in` is false and `last_seen` is null, and a wrong password gets
the generic error. -/
theorem login_spec_witness :
    login 300 "b@x.y" "pb" [userA, userB] =
      .redirectHome ⟨some "b@x.y", some "pb"⟩
        [userA, { userB with logged_in := true, last_seen := some 300 }] ∧
    login 300 "b@x.y" "nope" [userA, userB] =
      .form ⟨"b@x.y", "nope", "Bad email/password. Please try again or Register."⟩
        [userA, userB] := by
  constructor
  · have h := (login_spec 300 "b@x.y" "pb" [userA, userB] (by decide)
      (by decide)).2.2.1 userB (by decide)
    rw [h]
    decide
  · exact (login_spec 300 "b@x.y" "nope" [userA, userB] (by decide)
      (by decide)).2.2.2 (by decide)

/-- C7: with the four fields non-empty, registering with an email some
existing user already has re-renders the form with the error naming that
email and hinting to log in, echoes every entered value back, and leaves
the user table exactly as it was — no second row with that email is
created. -/
theorem register_existing_email (now : Int) (new_id : Nat)
    (first_name last_name email password : String) (users : List User)
    (h1 : first_name ≠ "") (h2 : last_name ≠ "") (h3 : email ≠ "")
    (h4 : password ≠ "") (hex : ∃ u ∈ users, u.email = email) :
    register now new_id first_name last_name email password users =
      .form ⟨email, password, first_name, last_name,
        "User with email " ++ email ++
          " already registered. Please <a href=\x27login\x27/>login</a> instead"⟩
        users := by
  have hany : users.any (fun u => u.email == email) = true := by
    rw [List.any_eq_true]
    obtain ⟨u, hu, he⟩ := hex
    exact ⟨u, hu, by simpa using he⟩
  simp [register, if_neg h1, if_neg h2, if_neg h3, if_neg h4, hany]

/-- Witness for C7: registering a second "a@x.y" account fails and the
table is unchanged. -/
theorem register_existing_email_witness :
    register 300 7 "Eve" "E" "a@x.y" "zz" [userA, userB] =
      .form ⟨"a@x.y", "zz", "Eve", "E",
        "User with email a@x.y already registered. Please <a href=\x27login\x27/>login</a> instead"⟩
        [userA, userB] :=
  register_existing_email 300 7 "Eve" "E" "a@x.y" "zz" [userA, userB]
    (by decide) (by decide) (by decide) (by decide) ⟨userA, by decide, by decide⟩

/-- The spec's account of the validation order, for comparison with the
code: the error reported is that of the first empty field in the order
first name, last name, email, password. -/
def specFirstMissingFieldError
    (first_name last_name email password : String) : String :=
  if first_name = "" then "Please enter a First Name."
  else if last_name = "" then "Please enter a Last Name."
  else if email = "" then "Please enter an email address."
  else if password = "" then "Please enter a password."
  else ""

/-- C8: whenever at least one of the four register fields is empty, the
outcome is the form re-rendered with every submitted value echoed
unchanged, the user table unchanged (no user created), and the error of
the first empty field in the order first name, last name, email,
password. -/
theorem register_validation_order (now : Int) (new_id : Nat)
    (first_name last_name email password : String) (users : List User)
    (h : first_name = "" ∨ last_name = "" ∨ email = "" ∨ password = "") :
    register now new_id first_name last_name email password users =
      .form ⟨email, password, first_name, last_name,
        specFirstMissingFieldError first_name last_name email password⟩
        users := by
  by_cases hf : first_name = ""
  · simp [register, specFirstMissingFieldError, hf]
  · by_cases hl : last_name = ""
    · simp [register, specFirstMissingFieldError, hf, hl]
    · by_cases hem : email = ""
      · simp [register, specFirstMissingFieldError, hf, hl, hem]
      · have hpw : password = "" := by tauto
        simp [register, specFirstMissingFieldError, hf, hl, hem, hpw]

/-- Witness for C8: an empty last name with a non-empty first name gets
the last-name error and creates nothing. -/
theorem register_validation_order_witness :
    register 300 7 "Eve" "" "" "zz" [userA, userB] =
      .form ⟨"", "zz", "Eve", "",
        "Please enter a Last Name."⟩ [userA, userB] := by
  have h := register_validation_order 300 7 "Eve" "" "" "zz" [userA, userB]
    (Or.inr (Or.inl rfl))
  rw [h]
  rfl

/-- A book no row of the through table points at. -/
def orphanBook : Book :=
  { id := 7, title := "Orphan", publication_year := 1999,
    average_rating := none, ratings_count := 0, image_url := "imgO",
    borrowed_by := none, borrowed_at := none }

/-- A database containing only `orphanBook`. -/
def orphanLib : Library :=
  { users := [userA], authors := [], books := [orphanBook],
    book_author := [] }

/-- Counterexample to C5 as stated: `orphanBook` is in the book table and
is not borrowed at all, yet `borrow_books` for user 1 returns the empty
list — the query's INNER JOIN to the author table drops every book with
no linked author row, so not every unborrowed book appears in every
user's result. -/
theorem borrow_books_misses_authorless_book :
    orphanBook ∈ orphanLib.books ∧ orphanBook.borrowed_by = none ∧
    borrow_books 1 orphanLib = [] :=
  ⟨by decide, rfl, rfl⟩

/-- C5 (amended to the books the author join keeps): every row of the
borrowable list is a book of the table that has at least one joined
author, is not borrowed by the requesting user, and carries the
aggregated author names; conversely every book with at least one joined
author whose `borrowed_by` differs from the requesting user — borrowed
by another user or by nobody — appears; and the list is ordered by
title. -/
theorem borrow_books_spec (uid : Nat) (lib : Library) :
    (∀ ab ∈ borrow_books uid lib,
      ab.book ∈ lib.books ∧ ab.book.borrowed_by ≠ some uid ∧
      authorNames lib ab.book.id ≠ [] ∧
      ab.author_list = String.intercalate "," (authorNames lib ab.book.id)) ∧
    (∀ b ∈ lib.books, authorNames lib b.id ≠ [] →
      b.borrowed_by ≠ some uid →
      ∃ ab ∈ borrow_books uid lib, ab.book = b) ∧
    List.Pairwise (fun ab ab2 : BorrowableBook =>
      ab.book.title ≤ ab2.book.title) (borrow_books uid lib) := by
  refine ⟨?_, ?_, ?_⟩
  · intro ab hab
    obtain ⟨hmem, hpred⟩ := List.mem_filter.mp hab
    simp only [borrow_books_query, List.mem_map] at hmem
    obtain ⟨b, hb, rfl⟩ := hmem
    have hbf := (List.mem_insertionSort byTitle).mp hb
    obtain ⟨hbooks, hg⟩ := List.mem_filter.mp hbf
    refine ⟨hbooks, ?_, ?_, rfl⟩
    · simpa using hpred
    · simpa using hg
  · intro b hb hA hB
    have hg : (!(authorNames lib b.id).isEmpty) = true := by
      simpa using hA
    have hbf : b ∈ lib.books.filter
        (fun b => !(authorNames lib b.id).isEmpty) :=
      List.mem_filter.mpr ⟨hb, hg⟩
    refine ⟨⟨b, String.intercalate "," (authorNames lib b.id)⟩, ?_, rfl⟩
    refine List.mem_filter.mpr ⟨?_, ?_⟩
    · simp only [borrow_books_query, List.mem_map]
      exact ⟨b, (List.mem_insertionSort byTitle).mpr hbf, rfl⟩
    · simpa using hB
  · have hs := List.sorted_insertionSort byTitle
      (lib.books.filter (fun b => !(authorNames lib b.id).isEmpty))
    have hmap : List.Pairwise (fun ab ab2 : BorrowableBook =>
        ab.book.title ≤ ab2.book.title) (borrow_books_query lib) := by
      rw [borrow_books_query, List.pairwise_map]
      exact hs
    exact hmap.sublist (List.filter_sublist _)

/-- Witness for C5's amended statement: in a one-book library whose book
is borrowed by user 2, the list shown to user 1 contains that book. -/
theorem borrow_books_spec_witness :
    ∃ ab ∈ borrow_books 1
      { users := [userA, userB], authors := [⟨2, "Anon"⟩],
        books := [bookB], book_author := [(2, 2)] },
      ab.book = bookB :=
  (borrow_books_spec 1
    { users := [userA, userB], authors := [⟨2, "Anon"⟩],
      books := [bookB], book_author := [(2, 2)] }).2.1 bookB
    (by decide) (by decide) (by decide)

end LibraryProject
